import Mathlib

/-!
# Verification of the web-agent task-orchestration loop

This development embeds the orchestration core of the repository
(`agent/main_agent.py`, `llm/client.py`, `browser_tools/*.py`) as
executable Lean definitions and proves properties of the embedding.

Python strings are modelled as `List Char` (one `Char` per Python
character, matching `len` and slicing).  Python dictionaries produced by
`json.loads` are modelled by the `JsonVal` inductive; Python runtime
values returned by tools are modelled by `PyVal`.  Machine-level caveats
(floats in JSON, `\u` escapes) are outside the modelled subset and are
noted where relevant.

The orchestrator is embedded twice.  `runStepT`/`runLoopT` take the
loop's collaborator `await`s at face value, so that the orchestration
logic (turn-log discipline, dispatch, interpretation, termination) can
be analysed in isolation; `runStepF`/`runLoopF` keep the source's actual
`await` semantics, under which awaiting the synchronous
`ChromeDriver.get_current_url` raises `TypeError` at the top of every
iteration, and awaiting a synchronous tool's returned dict raises inside
the dispatcher's `try`.  Theorems about real executions use the
faithful layer.
-/

namespace WebAgent

abbrev Str := List Char

/-- Python's notion of an ASCII whitespace character as used by
`str.strip()` (space, tab, newline, carriage return, vertical tab,
form feed). -/
def isSpaceChar (c : Char) : Bool :=
  c = ' ' || c = '\t' || c = '\n' || c = '\r' || c = '\x0b' || c = '\x0c'

/-- Model of Python `str.strip()`: drop whitespace from both ends. -/
def pyStrip (s : Str) : Str :=
  ((s.dropWhile isSpaceChar).reverse.dropWhile isSpaceChar).reverse

/-- Model of Python `str.lower()` restricted to ASCII letters, which is
all the operator-command comparison needs. -/
def pyLower (s : Str) : Str := s.map Char.toLower

/-- First index at which `pat` occurs as a substring of `s`
(model of Python `str.find` when the pattern is present). -/
def findSub? (s pat : Str) : Option Nat :=
  if pat.isPrefixOf s then some 0
  else
    match s with
    | [] => none
    | _ :: t => (findSub? t pat).map (· + 1)

/-- Model of Python's `pat in s` substring test. -/
def pyIn (pat s : Str) : Bool := (findSub? s pat).isSome

/-- Model of the Python slice `s[a:b]` for non-negative bounds. -/
def pySlice (s : Str) (a b : Nat) : Str := (s.take b).drop a

/-- Model of the Python slice `s[a:]`. -/
def pySliceFrom (s : Str) (a : Nat) : Str := s.drop a

/-! ## JSON values (results of Python `json.loads`) -/

inductive JsonVal where
  | null : JsonVal
  | bool : Bool → JsonVal
  | num : Int → JsonVal
  | str : Str → JsonVal
  | arr : List JsonVal → JsonVal
  | obj : List (Str × JsonVal) → JsonVal

/-- Association lookup in a JSON object (model of `dict.get` /
`dict.__getitem__` on the decoded object). -/
def jsonObjGet (kvs : List (Str × JsonVal)) (k : Str) : Option JsonVal :=
  match kvs with
  | [] => none
  | (k', v) :: rest => if k' = k then some v else jsonObjGet rest k

/-- Model of `dict.get(k)` on a decoded JSON value: `none` both when the
key is absent and when the value is not an object (the code only calls
this on objects). -/
def jsonGet (v : JsonVal) (k : Str) : Option JsonVal :=
  match v with
  | .obj kvs => jsonObjGet kvs k
  | _ => none

/-- Insertion into a decoded JSON object with Python `dict` semantics:
a repeated key overwrites the earlier value in place, otherwise the new
pair is appended (insertion order is preserved). -/
def objInsert (kvs : List (Str × JsonVal)) (k : Str) (v : JsonVal) :
    List (Str × JsonVal) :=
  match kvs with
  | [] => [(k, v)]
  | (k', v') :: rest =>
      if k' = k then (k', v) :: rest else (k', v') :: objInsert rest k v

/-! ## A JSON parser modelling `json.loads`

The parser covers the JSON subset exercised by the program's
tool-invocation blocks: `null`, booleans, integers (with the
leading-zero restriction), strings with the single-character escapes,
arrays and objects.  Floats and `\u` escapes are outside the modelled
subset and make the parse fail. -/

def escChar (c : Char) : Option Char :=
  if c = '"' then some '"'
  else if c = '\\' then some '\\'
  else if c = '/' then some '/'
  else if c = 'n' then some '\n'
  else if c = 't' then some '\t'
  else if c = 'r' then some '\r'
  else if c = 'b' then some '\x08'
  else if c = 'f' then some '\x0c'
  else none

/-- Parse the body of a JSON string literal (after the opening quote),
returning the decoded characters and the remaining input. -/
def parseJStr : Str → Option (Str × Str)
  | [] => none
  | '"' :: cs => some ([], cs)
  | '\\' :: [] => none
  | '\\' :: e :: cs =>
      match escChar e with
      | some ch => (parseJStr cs).map (fun p => (ch :: p.1, p.2))
      | none => none
  | c :: cs =>
      if c.val < 32 then none
      else (parseJStr cs).map (fun p => (c :: p.1, p.2))

/-- Consume a run of decimal digits, accumulating their value. -/
def parseDigits : Str → Nat → Nat × Nat × Str
  | c :: cs, acc =>
      if c.isDigit then
        let (n, count, rest) := parseDigits cs (acc * 10 + (c.toNat - 48))
        (n, count + 1, rest)
      else (acc, 0, c :: cs)
  | [], acc => (acc, 0, [])

/-- JSON whitespace skipping (space, tab, newline, carriage return). -/
def skipJWs (s : Str) : Str :=
  s.dropWhile (fun c => c = ' ' || c = '\t' || c = '\n' || c = '\r')

/-- Parse a JSON integer at the head of the input.  A leading zero
followed by further digits is rejected, as in `json.loads`. -/
def parseJNum (s : Str) : Option (JsonVal × Str) :=
  match s with
  | '-' :: cs =>
      match cs with
      | c :: _ =>
          if c.isDigit then
            let (n, count, rest) := parseDigits cs 0
            if c = '0' && count > 1 then none
            else some (.num (-(n : Int)), rest)
          else none
      | [] => none
  | c :: _ =>
      if c.isDigit then
        let (n, count, rest) := parseDigits s 0
        if c = '0' && count > 1 then none
        else some (.num (n : Int), rest)
      else none
  | [] => none

mutual

/-- Parse one JSON value at the head of the input (fuel-indexed
recursive descent). -/
def parseJVal : Nat → Str → Option (JsonVal × Str)
  | 0, _ => none
  | fuel + 1, s =>
    match skipJWs s with
    | [] => none
    | c :: cs =>
      if c = 'n' then
        if "ull".data.isPrefixOf cs then some (.null, cs.drop 3) else none
      else if c = 't' then
        if "rue".data.isPrefixOf cs then some (.bool true, cs.drop 3) else none
      else if c = 'f' then
        if "alse".data.isPrefixOf cs then some (.bool false, cs.drop 4) else none
      else if c = '"' then
        (parseJStr cs).map (fun p => (.str p.1, p.2))
      else if c = '\x7b' then
        parseJObjBody fuel cs [] true
      else if c = '[' then
        parseJArrBody fuel cs [] true
      else
        parseJNum (c :: cs)

/-- Parse the members of a JSON object after the opening brace.
`first` is true before any member has been read. -/
def parseJObjBody : Nat → Str → List (Str × JsonVal) → Bool →
    Option (JsonVal × Str)
  | 0, _, _, _ => none
  | fuel + 1, s, acc, first =>
    match skipJWs s with
    | [] => none
    | c :: cs =>
      if c = '\x7d' && first then some (.obj acc, cs)
      else
        match skipJWs (c :: cs) with
        | '"' :: cs' =>
          match parseJStr cs' with
          | none => none
          | some (k, rest) =>
            match skipJWs rest with
            | ':' :: rest' =>
              match parseJVal fuel rest' with
              | none => none
              | some (v, rest'') =>
                match skipJWs rest'' with
                | ',' :: rest''' =>
                    parseJObjBody fuel rest''' (objInsert acc k v) false
                | '\x7d' :: rest''' => some (.obj (objInsert acc k v), rest''')
                | _ => none
            | _ => none
        | _ => none

/-- Parse the elements of a JSON array after the opening bracket. -/
def parseJArrBody : Nat → Str → List JsonVal → Bool → Option (JsonVal × Str)
  | 0, _, _, _ => none
  | fuel + 1, s, acc, first =>
    match skipJWs s with
    | [] => none
    | c :: cs =>
      if c = ']' && first then some (.arr acc.reverse, cs)
      else
        match parseJVal fuel (c :: cs) with
        | none => none
        | some (v, rest) =>
          match skipJWs rest with
          | ',' :: rest' => parseJArrBody fuel rest' (v :: acc) false
          | ']' :: rest' => some (.arr (v :: acc).reverse, rest')
          | _ => none

end

/-- Model of `json.loads`: parse one value and require only whitespace
to remain. -/
def jsonParse (s : Str) : Option JsonVal :=
  match parseJVal (s.length + 1) s with
  | some (v, rest) => if skipJWs rest = [] then some v else none
  | none => none

/-! ## Python runtime values returned by tools -/

/-- Python values that the registered tools can return to
`ToolExecutor.execute` (strings, and the result dictionaries built by the
`browser_tools` functions). -/
inductive PyVal where
  | str : Str → PyVal
  | int : Int → PyVal
  | pyBool : Bool → PyVal
  | pyNone : PyVal
  | list : List PyVal → PyVal
  | dict : List (Str × PyVal) → PyVal

/-- Decimal rendering of a Python integer. -/
def intRepr (n : Int) : Str := (toString n).data

/-- One lower-case hexadecimal digit. -/
def hexDigit (n : Nat) : Char :=
  if n < 10 then Char.ofNat (48 + n) else Char.ofNat (87 + n)

/-- Python `repr` escaping for one character of a string literal whose
chosen quote is `q`: backslash, the quote itself, `\n`, `\r`, `\t`, and
the remaining control characters (and DEL) as `\xhh`.  Printability of
characters above ASCII is approximated as literal. -/
def pyReprChar (q c : Char) : Str :=
  if c = '\\' then ['\\', '\\']
  else if c = q then ['\\', q]
  else if c = '\n' then ['\\', 'n']
  else if c = '\r' then ['\\', 'r']
  else if c = '\t' then ['\\', 't']
  else if c.toNat < 32 || c.toNat == 127 then
    ['\\', 'x', hexDigit (c.toNat / 16), hexDigit (c.toNat % 16)]
  else [c]

def escapeChars (q : Char) : Str → Str
  | [] => []
  | c :: cs => pyReprChar q c ++ escapeChars q cs

/-- Python `repr` of a string: wrapped in single quotes, switching to
double quotes when the string contains a single quote but no double
quote, with the contents escaped accordingly. -/
def pyReprStr (s : Str) : Str :=
  let q := if s.contains '\'' && !(s.contains '"') then '"' else '\''
  q :: (escapeChars q s ++ [q])

mutual

/-- Model of Python `repr` on the values of `PyVal` (the rendering used
for elements inside a dict or list display). -/
def pyRepr : PyVal → Str
  | .str s => pyReprStr s
  | .int n => intRepr n
  | .pyBool true => "True".data
  | .pyBool false => "False".data
  | .pyNone => "None".data
  | .list xs => '[' :: (pyReprList xs ++ [']'])
  | .dict kvs => '\x7b' :: (pyReprDict kvs ++ ['\x7d'])

/-- Comma-separated `repr` of list elements. -/
def pyReprList : List PyVal → Str
  | [] => []
  | [x] => pyRepr x
  | x :: xs => pyRepr x ++ ", ".data ++ pyReprList xs

/-- Comma-separated `repr` of dict items (string keys, themselves
rendered with string `repr`). -/
def pyReprDict : List (Str × PyVal) → Str
  | [] => []
  | [(k, v)] => pyReprStr k ++ ": ".data ++ pyRepr v
  | (k, v) :: kvs =>
      pyReprStr k ++ ": ".data ++ pyRepr v ++ ", ".data ++ pyReprDict kvs

end

/-- Model of Python `str()` as used by f-string interpolation: a string
renders as itself, everything else as its `repr`. -/
def pyRender (v : PyVal) : Str :=
  match v with
  | .str s => s
  | v => pyRepr v

mutual

/-- The Python object corresponding to a decoded JSON value. -/
def jsonToPy : JsonVal → PyVal
  | .null => .pyNone
  | .bool b => .pyBool b
  | .num n => .int n
  | .str s => .str s
  | .arr xs => .list (jsonToPyList xs)
  | .obj kvs => .dict (jsonToPyDict kvs)

def jsonToPyList : List JsonVal → List PyVal
  | [] => []
  | x :: xs => jsonToPy x :: jsonToPyList xs

def jsonToPyDict : List (Str × JsonVal) → List (Str × PyVal)
  | [] => []
  | (k, v) :: kvs => (k, jsonToPy v) :: jsonToPyDict kvs

end

/-- f-string rendering of the extracted `tool_call.get("name")` value
(`None` when the key was absent). -/
def fNameStr : Option JsonVal → Str
  | none => "None".data
  | some v => pyRender (jsonToPy v)

/-! ## `ToolExecutor.execute` (`agent/main_agent.py`) -/

/-- Outcome of invoking one registered tool: a returned Python value, a
raised exception (carrying `str(e)`), or an invocation that never
returns (the handoff tool awaiting operator input that never comes). -/
inductive ToolOutcome where
  | ok : PyVal → ToolOutcome
  | exn : Str → ToolOutcome
  | blocks : ToolOutcome

/-- A registered tool: a function from the decoded `parameters` object
to an outcome.  Keyword-unpacking failures of `tool_func(**parameters)`
are part of the tool's own outcome (they raise inside the `try`). -/
abbrev ToolFn := JsonVal → ToolOutcome

/-- The executor's registry `self.tools` (name, callable).  The source
stores these in an insertion-ordered dict; the table is looked up by
name only. -/
abbrev ToolTable := List (Str × ToolFn)

def lookupFn : ToolTable → Str → Option ToolFn
  | [], _ => none
  | (n, f) :: rest, k => if n = k then some f else lookupFn rest k

def unknownToolMsg (rendered : Str) : Str :=
  "错误：未知工具 '".data ++ rendered ++ "'".data

def toolOkPrefix (name : Str) : Str :=
  "工具 '".data ++ name ++ "' 执行成功: ".data

def toolFailPrefix (name : Str) : Str :=
  "工具 '".data ++ name ++ "' 执行失败: ".data

/-- The fixed truncation marker appended to over-long successful string
results (`"...\n[结果已截断]"`). -/
def truncMarker : Str := "...\n[结果已截断]".data

/-- The fixed length ceiling applied to successful string results. -/
def lenCeiling : Nat := 2000

/-- The length cap in `execute`: only applied when the result is a
string and strictly longer than the ceiling. -/
def truncateResult (v : PyVal) : PyVal :=
  match v with
  | .str s =>
      if lenCeiling < s.length then .str (s.take lenCeiling ++ truncMarker)
      else .str s
  | v => v

/-- Modelled library behaviour: `tool_name not in self.tools` hashes
`tool_name`; a decoded JSON array or object (Python `list`/`dict`) is
unhashable, so the membership test itself raises `TypeError` outside the
`try` block and the exception escapes `execute`. -/
def unhashableMsg : Str := "TypeError: unhashable type".data

/-- Result of `ToolExecutor.execute`: the returned string, an exception
escaping to the caller, or no return at all (a tool that blocks
forever). -/
inductive ExecResult where
  | ok : Str → ExecResult
  | raised : Str → ExecResult
  | blocked : ExecResult
deriving DecidableEq

/-- `ToolExecutor.execute(tool_name, parameters)`: unknown names produce
a failure string; a raising tool is converted to a failure string
prefixed with the tool name; successful string results longer than the
ceiling are truncated with the marker; the assembled message embeds the
(possibly truncated) result through f-string rendering. -/
def execute (tools : ToolTable) (tool_name : Option JsonVal)
    (params : JsonVal) : ExecResult :=
  match tool_name with
  | some (.arr _) => .raised unhashableMsg
  | some (.obj _) => .raised unhashableMsg
  | some (.str s) =>
      match lookupFn tools s with
      | none => .ok (unknownToolMsg s)
      | some f =>
          match f params with
          | .exn m => .ok (toolFailPrefix s ++ m)
          | .blocks => .blocked
          | .ok v => .ok (toolOkPrefix s ++ pyRender (truncateResult v))
  | nm => .ok (unknownToolMsg (fNameStr nm))

/-- Whether the decoded name value is unhashable in Python (a decoded
JSON array or object, i.e. `list`/`dict`). -/
def isUnhashable : Option JsonVal → Bool
  | some (.arr _) => true
  | some (.obj _) => true
  | _ => false

/-- Whether an exception escaped `execute` to its caller. -/
def isRaised : ExecResult → Bool
  | .raised _ => true
  | _ => false

/-- The string `execute` returned (empty for outcomes that return
nothing). -/
def okText : ExecResult → Str
  | .ok s => s
  | .raised _ => []
  | .blocked => []

/-! ## `LLMClient.generate_response` (`llm/client.py`) -/

def otag : Str := "<tool_call>".data

def ctag : Str := "</tool_call>".data

/-- The designated completion phrase tested against the reasoning
text. -/
def donePhrase : Str := "任务已完成".data

def llmErrPrefix : Str := "调用LLM时发生错误: ".data

/-- The structured planner turn produced by the interpreter
(`LLMResponse` in the source: `content`, `tool_call`, `is_finished`). -/
structure LLMResponse where
  content : Str
  tool_call : Option JsonVal
  is_finished : Bool

/-- What the transport layer handed back for one call: the reply text of
`choices[0].message.content`, or the text of the exception raised while
calling the API. -/
inductive ApiResult where
  | ok : Str → ApiResult
  | err : Str → ApiResult

/-- `start` in the source: index one past the first `<tool_call>`
marker.  Only meaningful when the marker occurs. -/
def tagStart (content : Str) : Nat :=
  (findSub? content otag).getD 0 + otag.length

/-- `end` in the source: index of the first `</tool_call>` marker.
Only meaningful when the marker occurs. -/
def tagEnd (content : Str) : Nat := (findSub? content ctag).getD 0

/-- `tool_call_str` in the source: the stripped text between the first
marker pair. -/
def blockText (content : Str) : Str :=
  pyStrip (pySlice content (tagStart content) (tagEnd content))

/-- The reasoning text after a successful parse: the reply with the
first marker pair and its payload removed, then stripped. -/
def strippedReasoning (content : Str) : Str :=
  pyStrip (pySlice content 0 (tagStart content - otag.length) ++
    pySliceFrom content (tagEnd content + ctag.length))

/-- Modelled library behaviour: `pydantic` rejects a `tool_call` that is
neither `None` nor a JSON object when `LLMResponse` is constructed
(`Optional[Dict[str, Any]]` refuses numbers, strings, booleans and
lists), and the surrounding `except Exception` turns that into an error
response.  The message text is a model placeholder; no theorem depends
on it. -/
def pydanticErrText : Str := "tool_call 字段验证失败".data

/-- `LLMClient.generate_response`, given the transport outcome for this
call and the `is_final` flag.  Mirrors the source: locate the first
marker pair, `json.loads` the payload (failure retains the raw text and
a null invocation), remove the block and strip for the reasoning text,
and compute `is_finished` with the completion phrase test in which a
truthy parsed invocation takes priority.  A decoded `null` payload is
Python `None`: it passes the `Optional[Dict]` validation as a null
invocation, with the block already stripped from the reasoning and
`not tool_call` truthy in the completion test. -/
def generate_response (api : ApiResult) (is_final : Bool) : LLMResponse :=
  match api with
  | .err e => ⟨llmErrPrefix ++ e, none, false⟩
  | .ok content =>
    if pyIn otag content && pyIn ctag content then
      match jsonParse (blockText content) with
      | none =>
          ⟨content, none, is_final || pyIn donePhrase content⟩
      | some (.obj kvs) =>
          let content2 := strippedReasoning content
          ⟨content2, some (.obj kvs),
            is_final || (pyIn donePhrase content2 && kvs.isEmpty)⟩
      | some .null =>
          let content2 := strippedReasoning content
          ⟨content2, none, is_final || pyIn donePhrase content2⟩
      | some _ =>
          ⟨llmErrPrefix ++ pydanticErrText, none, false⟩
    else
      ⟨content, none, is_final || pyIn donePhrase content⟩

/-! ## Browser capabilities (`browser_tools/*.py`)

Each module holds a module-level `browser` global, set by
`set_browser_instance`; the model passes it explicitly as an
`Option`.  Calls into the underlying driver are recorded as an effect
trace so that "does not touch the actuator" is expressible; the driver's
answers come from a small oracle structure (the model treats driver
calls as non-raising, which is all the proved properties need). -/

/-- One call into the browser driver. -/
inductive BEffect where
  | navigate : Str → BEffect
  | getCurrentUrl : BEffect
  | clickElement : Str → BEffect
  | saveScreenshot : Str → BEffect
deriving DecidableEq

/-- Oracle for the driver's answers during one capability call. -/
structure BrowserM where
  navigateOk : Str → Bool
  clickOk : Str → Bool
  saveOk : Bool
  currentUrl : Str

/-- The shared uninitialized-browser message. -/
def uninitMsg : Str := "浏览器实例未初始化".data

/-- `navigation.go_to_url`. -/
def go_to_url (browser : Option BrowserM) (url : Str) :
    PyVal × List BEffect :=
  match browser with
  | none =>
      (.dict [("success".data, .pyBool false),
              ("message".data, .str uninitMsg),
              ("current_url".data, .pyNone)], [])
  | some b =>
      let success := b.navigateOk url
      (.dict [("success".data, .pyBool success),
              ("current_url".data, .str b.currentUrl),
              ("message".data, .str (if success
                then "已导航到 ".data ++ url
                else "导航到 ".data ++ url ++ " 失败".data))],
       [.navigate url, .getCurrentUrl])

/-- `interaction.click_element`. -/
def click_element (browser : Option BrowserM)
    (selector selector_type : Str) : PyVal × List BEffect :=
  match browser with
  | none =>
      (.dict [("success".data, .pyBool false),
              ("message".data, .str uninitMsg),
              ("current_url".data, .pyNone)], [])
  | some b =>
      let success := b.clickOk selector
      (.dict [("success".data, .pyBool success),
              ("current_url".data, .str b.currentUrl),
              ("message".data, .str (if success
                then "已点击选择器 ".data ++ selector ++ " 的元素".data
                else "无法点击选择器 ".data ++ selector ++ " 的元素".data))],
       [.clickElement selector, .getCurrentUrl])

/-- The filesystem/clock context of `screenshot.take_screenshot`: the
screenshot directory and the formatted timestamp. -/
structure ScreenshotCtx where
  dir : Str
  timestamp : Str

/-- The filename-sanitising comprehension in `take_screenshot`
(`c.isalnum() or c in " _-"` followed by `strip`); alphanumeric here is
the ASCII approximation of Python's unicode `isalnum`. -/
def safeDesc (d : Str) : Str :=
  pyStrip (d.filter (fun c => c.isAlphanum || c = ' ' || c = '_' || c = '-'))

/-- `screenshot.take_screenshot`. -/
def take_screenshot (browser : Option BrowserM) (ctx : ScreenshotCtx)
    (description : Str) : PyVal × List BEffect :=
  match browser with
  | none =>
      (.dict [("success".data, .pyBool false),
              ("message".data, .str uninitMsg),
              ("screenshot_path".data, .pyNone),
              ("current_url".data, .pyNone)], [])
  | some b =>
      let filename :=
        if description.isEmpty then
          "screenshot_".data ++ ctx.timestamp ++ ".png".data
        else
          "screenshot_".data ++ ctx.timestamp ++ "_".data ++
            safeDesc description ++ ".png".data
      let file_path := ctx.dir ++ "/".data ++ filename
      let success := b.saveOk
      let message :=
        if success then
          "已保存截图至 ".data ++ file_path ++
            (if description.isEmpty then []
             else "，描述: ".data ++ description)
        else "截图保存失败".data
      (.dict [("success".data, .pyBool success),
              ("current_url".data, .str b.currentUrl),
              ("screenshot_path".data,
                if success then .str file_path else .pyNone),
              ("message".data, .str message)],
       [.saveScreenshot file_path, .getCurrentUrl])

/-! ## Human handoff (`browser_tools/human_handoff.py`) -/

/-- The driver as seen by the handoff protocol: the URL reported when
the handoff starts and the URL reported after the operator acted (the
operator may have navigated in between). -/
structure HandoffBrowser where
  urlAtEntry : Str
  urlAtExit : Str

/-- The `while user_input.lower() not in ["done", "abort"]` loop: the
first operator line whose stripped, lowered form is a decision;
`help` and anything else only re-prompt.  `none` means the script never
decides, in which case the real code blocks on `input()` forever. -/
def firstDecision : List Str → Option Str
  | [] => none
  | x :: xs =>
      let l := pyLower (pyStrip x)
      if l = "done".data || l = "abort".data then some l
      else firstDecision xs

/-- `human_handoff.request_human_intervention(reason)`.  The module's
own `browser` global gates entry; the screenshot helper is invoked with
its own (separately set) global and its result feeds only console
output.  The returned dict is exactly the source's literal for each
branch; a script with no decision models the indefinite block on
`input()`. -/
def request_human_intervention (browser : Option HandoffBrowser)
    (scBrowser : Option BrowserM) (scCtx : ScreenshotCtx)
    (operatorInput : List Str) (reason : Str) :
    ToolOutcome × List BEffect :=
  match browser with
  | none =>
      (.ok (.dict [("success".data, .pyBool false),
                   ("message".data, .str uninitMsg),
                   ("current_url".data, .pyNone)]), [])
  | some b =>
      let scBefore :=
        take_screenshot scBrowser scCtx ("human_handoff_before_".data ++ reason)
      match firstDecision operatorInput with
      | none => (.blocks, .getCurrentUrl :: scBefore.2)
      | some l =>
        if l = "abort".data then
          (.ok (.dict [("success".data, .pyBool false),
                       ("aborted".data, .pyBool true),
                       ("current_url".data, .str b.urlAtExit),
                       ("message".data, .str "任务已被用户终止".data)]),
           .getCurrentUrl :: scBefore.2 ++ [.getCurrentUrl])
        else
          let scAfter :=
            take_screenshot scBrowser scCtx
              ("human_handoff_after_".data ++ reason)
          (.ok (.dict [("success".data, .pyBool true),
                       ("aborted".data, .pyBool false),
                       ("previous_url".data, .str b.urlAtEntry),
                       ("current_url".data, .str b.urlAtExit),
                       ("message".data, .str ("人工介入完成，已从 ".data ++
                         b.urlAtEntry ++ " 导航到 ".data ++ b.urlAtExit))]),
           .getCurrentUrl :: scBefore.2 ++ [.getCurrentUrl] ++ scAfter.2)

/-- Modelled placeholder for the `TypeError` text raised when
`tool_func(**parameters)` cannot bind the keyword arguments; no theorem
depends on the text. -/
def kwArgsErr : Str := "TypeError: 参数不匹配".data

/-- Modelled library behaviour: `str(e)` of the `TypeError` raised by
`await v` when `v` is not awaitable — `object <T> can't be used in
'await' expression`. -/
def awaitErrText (typeName : Str) : Str :=
  "object ".data ++ typeName ++ " can't be used in 'await' expression".data

/-- The handoff capability as registered in the executor's table.
`execute` binds the single `reason` keyword from the decoded
`parameters` object (any other shape raises a `TypeError` inside the
executor's `try`) and evaluates `await tool_func(**parameters)`:
`request_human_intervention` is a synchronous function, so the call
itself runs to completion — its console interaction, snapshots and
operator wait all happen — but the `await` on the returned dict then
raises `TypeError` inside the `try`, so a returning handoff always
surfaces as the executor's failure outcome; only a handoff that never
returns (no operator decision) leaves the dispatch blocked. -/
def handoffToolFn (browser : Option HandoffBrowser)
    (scBrowser : Option BrowserM) (scCtx : ScreenshotCtx)
    (operatorInput : List Str) : ToolFn := fun params =>
  match params with
  | .obj [(k, v)] =>
      if k = "reason".data then
        match (request_human_intervention browser scBrowser scCtx
            operatorInput (pyRender (jsonToPy v))).1 with
        | .blocks => .blocks
        | _ => .exn (awaitErrText "dict".data)
      else .exn kwArgsErr
  | _ => .exn kwArgsErr

/-! ## The orchestrator (`MainAgent.run`, `agent/main_agent.py`) -/

/-- One `{role, content}` entry of `self.state.context`. -/
structure Entry where
  role : Str
  content : Str
deriving DecidableEq

/-- `AgentState` from the source (`last_action`/`last_result` are never
read or written by `run` and are omitted). -/
structure AgentState where
  task : Str
  context : List Entry
  current_url : Str
  is_human_in_control : Bool
deriving DecidableEq

/-- The state a fresh `MainAgent(task)` starts with. -/
def initialState (task : Str) : AgentState :=
  ⟨task, [], [], false⟩

/-- The collaborators of one run: the driver's answers to the
per-iteration observation query, the transport's reply for each model
call (a function of the context sent and the `is_final` flag), and the
registered tool table. -/
structure Env where
  obs : Nat → Str × Str
  llmRaw : List Entry → Bool → ApiResult
  tools : ToolTable

/-- `_get_current_observation`: the page summary built from the current
URL and title, with the extra line when `is_human_in_control` is set. -/
def mkObservation (url title : Str) (flag : Bool) : Str :=
  "当前页面: ".data ++ title ++ " (URL: ".data ++ url ++ ")\n".data ++
    (if flag then "状态: 等待人工操作完成\n".data else [])

def obsEntry (o : Str) : Entry := ⟨"system".data, "观察: ".data ++ o⟩

def assistantEntry (c : Str) : Entry := ⟨"assistant".data, c⟩

def toolResultEntry (r : Str) : Entry :=
  ⟨"system".data, "工具调用结果: ".data ++ r⟩

def repromptMsg : Str := "请提供具体的工具调用指令来继续完成任务。".data

def repromptEntry : Entry := ⟨"user".data, repromptMsg⟩

def finishedDefault : Str := "任务已完成，但未返回具体结果。".data

def exhaustedDefault (m : Nat) : Str :=
  "已达到最大迭代次数 (".data ++ (toString m).data ++
    ")，任务可能未完成。".data

/-- `self.state.context.append(...)`. -/
def appendEntry (s : AgentState) (e : Entry) : AgentState :=
  { s with context := s.context ++ [e] }

def handoffName : Str := "request_human_intervention".data

/-- The `tool_name == "request_human_intervention"` comparison (true
only for that exact string). -/
def isHandoffName (nm : Option JsonVal) : Bool :=
  match nm with
  | some (.str s) => s = handoffName
  | _ => false

/-- Python truthiness of a decoded JSON value, as tested by
`if llm_response.tool_call:` — in particular an empty dict is falsy, so
an empty-object invocation takes the re-prompt branch, not dispatch. -/
def jsonTruthy : JsonVal → Bool
  | .null => false
  | .bool b => b
  | .num n => decide (n ≠ 0)
  | .str s => !s.isEmpty
  | .arr xs => !xs.isEmpty
  | .obj kvs => !kvs.isEmpty

/-- Python's `a or b` for the returned result strings (empty string is
falsy). -/
def orDefault (c d : Str) : Str := if c.isEmpty then d else c

/-- The state after the observation phase of one iteration:
`current_url` refreshed and the observation entry appended. -/
def stateWithObs (env : Env) (iter : Nat) (s : AgentState) : AgentState :=
  let url := (env.obs iter).1
  let title := (env.obs iter).2
  appendEntry { s with current_url := url }
    (obsEntry (mkObservation url title s.is_human_in_control))

/-- Outcome of one loop iteration: continue, return (the finished
branch), an exception escaping `run`, or a turn that never returns. -/
inductive StepOut where
  | next : AgentState → StepOut
  | finishedNow : Str → AgentState → StepOut
  | crash : Str → AgentState → StepOut
  | blockedStep : AgentState → StepOut
deriving DecidableEq

def stepOutState : StepOut → AgentState
  | .next s => s
  | .finishedNow _ s => s
  | .crash _ s => s
  | .blockedStep s => s

/-- One iteration of the `for iteration in range(self.max_iterations)`
body with the collaborator `await`s taken at face value (see the
faithful-semantics layer below for the source's actual behaviour at
those points), also returning the successive states the iteration
passes through (after the observation append, the reasoning append, the
tool-result append, and the post-handoff flag write).  Dispatch is
guarded by `if llm_response.tool_call:` — Python truthiness, so a null
or empty-object invocation takes the re-prompt branch. -/
def runStepT (env : Env) (iter : Nat) (s0 : AgentState) :
    List AgentState × StepOut :=
  let s1 := stateWithObs env iter s0
  let resp := generate_response (env.llmRaw s1.context false) false
  let s2 := if resp.content.isEmpty then s1
            else appendEntry s1 (assistantEntry resp.content)
  if resp.is_finished then
    let fin := generate_response (env.llmRaw s2.context true) true
    ([s1, s2], .finishedNow (orDefault fin.content finishedDefault) s2)
  else
    match resp.tool_call with
    | some tc =>
        if jsonTruthy tc then
          let nm := jsonGet tc "name".data
          let ps := (jsonGet tc "parameters".data).getD (.obj [])
          match execute env.tools nm ps with
          | .raised m => ([s1, s2], .crash m s2)
          | .blocked => ([s1, s2], .blockedStep s2)
          | .ok result =>
              let s3 := appendEntry s2 (toolResultEntry result)
              let s4 := if isHandoffName nm
                        then { s3 with is_human_in_control := false }
                        else s3
              ([s1, s2, s3, s4], .next s4)
        else
          let s3 := appendEntry s2 repromptEntry
          ([s1, s2, s3], .next s3)
    | none =>
        let s3 := appendEntry s2 repromptEntry
        ([s1, s2, s3], .next s3)

/-- The value `MainAgent.run` produces: the returned result string with
the final state, an exception escaping the loop, or a run stuck inside
a blocking tool. -/
inductive RunResult where
  | done : Str → AgentState → RunResult
  | crashed : Str → AgentState → RunResult
  | blockedRun : AgentState → RunResult
deriving DecidableEq

def resultState : RunResult → AgentState
  | .done _ s => s
  | .crashed _ s => s
  | .blockedRun s => s

def resultText : RunResult → Str
  | .done r _ => r
  | .crashed m _ => m
  | .blockedRun _ => []

/-- The loop of `MainAgent.run`, by remaining fuel (`m` is
`max_iterations`; fuel `m - i` means iterations `i, …, m-1` remain).
Exhaustion performs the final-summary call and falls back to the
iteration-exhausted default when its content is empty.  The state trace
accumulates every intermediate state of every iteration. -/
def runLoopT (env : Env) (m : Nat) : Nat → AgentState → List AgentState × RunResult
  | 0, s =>
      let fin := generate_response (env.llmRaw s.context true) true
      ([], .done (orDefault fin.content (exhaustedDefault m)) s)
  | fuel + 1, s =>
      match runStepT env (m - (fuel + 1)) s with
      | (snaps, .next s') =>
          let (rest, r) := runLoopT env m fuel s'
          (snaps ++ rest, r)
      | (snaps, .finishedNow r s') => (snaps, .done r s')
      | (snaps, .crash msg s') => (snaps, .crashed msg s')
      | (snaps, .blockedStep s') => (snaps, .blockedRun s')

/-- `MainAgent.run`, with its intermediate-state trace. -/
def runAgentT (env : Env) (m : Nat) (s : AgentState) :
    List AgentState × RunResult :=
  runLoopT env m m s

/-- `MainAgent.run` (result only). -/
def runAgent (env : Env) (m : Nat) (s : AgentState) : RunResult :=
  (runAgentT env m s).2

/-- `self.max_iterations = 50`. -/
def defaultMaxIterations : Nat := 50

/-! ## The faithful `await` semantics of `MainAgent.run`

The `runStepT`/`runLoopT` layer above takes the loop's collaborator
`await`s at face value so the orchestration logic can be analysed in
isolation.  The source, however, awaits synchronous calls:
`_get_current_observation` (main_agent.py line 178) does
`await self.browser.get_current_url()`, and `ChromeDriver.get_current_url`
(browser_core/chrome_driver.py line 153) is a plain method returning a
string (or `None` when the driver errored — and line 179 would next call
a method `get_title` that `ChromeDriver` does not define at all).
Awaiting that non-awaitable value raises `TypeError`, which nothing in
`run` catches, so every iteration of the real loop dies at its first
statement — before the URL is stored, before any context append, before
any planner call and before any dispatch.  This layer keeps that
behaviour. -/

/-- One iteration of the real loop: `url = await
self.browser.get_current_url()` evaluates the synchronous call and then
raises `TypeError` on the `await`; the exception escapes `run` with the
state untouched. -/
def runStepF (env : Env) (iter : Nat) (s : AgentState) : StepOut :=
  .crash (awaitErrText "str".data) s

/-- The loop of `MainAgent.run` under the faithful semantics: with no
fuel the `for` body never runs and the final-summary call (a genuinely
`async` method, correctly awaited) produces the result; any iteration
crashes at once. -/
def runLoopF (env : Env) (m : Nat) : Nat → AgentState → RunResult
  | 0, s =>
      let fin := generate_response (env.llmRaw s.context true) true
      .done (orDefault fin.content (exhaustedDefault m)) s
  | fuel + 1, s =>
      match runStepF env (m - (fuel + 1)) s with
      | .next s' => runLoopF env m fuel s'
      | .finishedNow r s' => .done r s'
      | .crash msg s' => .crashed msg s'
      | .blockedStep s' => .blockedRun s'

/-- `MainAgent.run` under the faithful semantics. -/
def runAgentF (env : Env) (m : Nat) (s : AgentState) : RunResult :=
  runLoopF env m m s

/-! ## Concrete scenario environments

Closed instances of `Env` used to evaluate the orchestrator on the
scenarios the claims single out. -/

/-- A handoff capability whose operator immediately types `abort`. -/
def abortHandoff : ToolFn :=
  handoffToolFn
    (some ⟨"https://a.example/login".data, "https://a.example/home".data⟩)
    (some ⟨fun _ => true, fun _ => true, true, "https://a.example/login".data⟩)
    ⟨"data/screenshots".data, "20260101_000000".data⟩
    ["abort".data]

/-- A planner reply invoking the handoff capability. -/
def handoffReply : Str :=
  ("需要登录<tool_call>\x7b\"name\": \"request_human_intervention\", " ++
   "\"parameters\": \x7b\"reason\": \"登录\"\x7d\x7d</tool_call>").data

/-- Environment for the abort scenario: a planner that requests the
handoff on the first turn and produces plain prose afterwards; the
final-summary call answers `最终总结`. -/
def abortEnv : Env :=
  ⟨fun _ => ("https://a.example/login".data, "登录页".data),
   fun ctx final =>
     if final then .ok "最终总结".data
     else if ctx.length ≤ 1 then .ok handoffReply
     else .ok "继续检查页面".data,
   [(handoffName, abortHandoff)]⟩

/-- Environment whose planner only ever produces prose (never finishes,
never invokes a tool) and whose final-summary call answers
`好的，完成`. -/
def proseEnv : Env :=
  ⟨fun _ => ("https://c.example/".data, "页面".data),
   fun _ final =>
     if final then .ok "好的，完成".data else .ok "正在查看页面".data,
   []⟩

/-- A capability returning a 2001-character string, used to exercise
the length ceiling. -/
def bigStrTool : ToolFn := fun _ => ToolOutcome.ok (.str (List.replicate 2001 'a'))

/-- A planner reply containing both the completion phrase and a
well-formed tool-invocation block. -/
def phraseAndBlockReply : Str :=
  ("任务已完成，接着执行<tool_call>\x7b\"name\": \"click\", " ++
   "\"parameters\": \x7b\"selector\": \"a\"\x7d\x7d</tool_call>").data

/-- The decoded object of `phraseAndBlockReply`'s block. -/
def phraseAndBlockKvs : List (Str × JsonVal) :=
  [("name".data, .str "click".data),
   ("parameters".data, .obj [("selector".data, .str "a".data)])]

/-- A planner reply with two tool-invocation blocks (`a` then `b`). -/
def twoBlockReply : Str :=
  ("去<tool_call>\x7b\"name\": \"a\"\x7d</tool_call>再" ++
   "<tool_call>\x7b\"name\": \"b\"\x7d</tool_call>好").data

/-- A planner reply whose block parses as JSON but is not an invocation
object (no `name`/`arguments` keys). -/
def fooBlockReply : Str :=
  "请看<tool_call>\x7b\"foo\": 1\x7d</tool_call>好的".data

/-- A planner reply whose block is not valid JSON at all. -/
def brokenBlockReply : Str :=
  "看<tool_call>\x7bnot json</tool_call>好".data

/-- The ordering on agent states used by the append-only invariant: the
earlier turn log is a prefix of the later one. -/
abbrev ctxPrefix (a b : AgentState) : Prop := a.context <+: b.context

/-! # Theorems -/

theorem appendEntry_ctxPrefix (s : AgentState) (e : Entry) :
    ctxPrefix s (appendEntry s e) :=
  List.prefix_append s.context [e]

theorem stateWithObs_ctxPrefix (env : Env) (i : Nat) (s : AgentState) :
    ctxPrefix s (stateWithObs env i s) :=
  List.prefix_append s.context _

theorem ctxPrefix_refl (s : AgentState) : ctxPrefix s s :=
  List.prefix_refl _

theorem ctxPrefix_trans {a b c : AgentState}
    (h1 : ctxPrefix a b) (h2 : ctxPrefix b c) : ctxPrefix a c :=
  List.IsPrefix.trans h1 h2

/-- Resetting `is_human_in_control` leaves the turn log untouched. -/
theorem ctxPrefix_withFlag (s : AgentState) (b : Bool) :
    ctxPrefix s { s with is_human_in_control := b } :=
  List.prefix_refl _

/-- The conditional flag write after a handoff dispatch leaves the turn
log untouched either way. -/
theorem flagIte_ctxPrefix (s : AgentState) (c : Prop) [Decidable c] :
    ctxPrefix s (if c then { s with is_human_in_control := false } else s) := by
  split
  · exact ctxPrefix_withFlag _ _
  · exact ctxPrefix_refl _

/-- Within one loop iteration, each successive state only appends to
the turn log. -/
theorem runStepT_chain (env : Env) (i : Nat) (s : AgentState) :
    List.Chain' ctxPrefix (s :: (runStepT env i s).1) := by
  have hobs := stateWithObs_ctxPrefix env i s
  have hassist : ctxPrefix (stateWithObs env i s)
      (if (generate_response (env.llmRaw (stateWithObs env i s).context false)
            false).content.isEmpty
       then stateWithObs env i s
       else appendEntry (stateWithObs env i s)
         (assistantEntry (generate_response
           (env.llmRaw (stateWithObs env i s).context false) false).content)) := by
    split
    · exact ctxPrefix_refl _
    · exact appendEntry_ctxPrefix _ _
  simp only [runStepT]
  split
  · exact List.chain'_cons.mpr ⟨hobs,
      List.chain'_cons.mpr ⟨hassist, List.chain'_singleton _⟩⟩
  · split
    · split
      · split
        · exact List.chain'_cons.mpr ⟨hobs,
            List.chain'_cons.mpr ⟨hassist, List.chain'_singleton _⟩⟩
        · exact List.chain'_cons.mpr ⟨hobs,
            List.chain'_cons.mpr ⟨hassist, List.chain'_singleton _⟩⟩
        · exact List.chain'_cons.mpr ⟨hobs, List.chain'_cons.mpr ⟨hassist,
            List.chain'_cons.mpr ⟨appendEntry_ctxPrefix _ _,
              List.chain'_cons.mpr ⟨flagIte_ctxPrefix _ _,
                List.chain'_singleton _⟩⟩⟩⟩
      · exact List.chain'_cons.mpr ⟨hobs, List.chain'_cons.mpr ⟨hassist,
          List.chain'_cons.mpr ⟨appendEntry_ctxPrefix _ _,
            List.chain'_singleton _⟩⟩⟩
    · exact List.chain'_cons.mpr ⟨hobs, List.chain'_cons.mpr ⟨hassist,
        List.chain'_cons.mpr ⟨appendEntry_ctxPrefix _ _,
          List.chain'_singleton _⟩⟩⟩

/-- The state an iteration hands to the next turn (or to the caller)
extends the turn log the iteration started with. -/
theorem runStepT_out_ctxPrefix (env : Env) (i : Nat) (s : AgentState) :
    ctxPrefix s (stepOutState (runStepT env i s).2) := by
  have h1 : ctxPrefix s (stateWithObs env i s) := stateWithObs_ctxPrefix env i s
  have h2 : ctxPrefix s
      (if (generate_response (env.llmRaw (stateWithObs env i s).context false)
            false).content.isEmpty
       then stateWithObs env i s
       else appendEntry (stateWithObs env i s)
         (assistantEntry (generate_response
           (env.llmRaw (stateWithObs env i s).context false) false).content)) := by
    split
    · exact h1
    · exact ctxPrefix_trans h1 (appendEntry_ctxPrefix _ _)
  simp only [runStepT]
  split
  · exact h2
  · split
    · split
      · split
        · exact h2
        · exact h2
        · simp only [stepOutState]
          exact ctxPrefix_trans h2 (ctxPrefix_trans
            (appendEntry_ctxPrefix _ _) (flagIte_ctxPrefix _ _))
      · exact ctxPrefix_trans h2 (appendEntry_ctxPrefix _ _)
    · exact ctxPrefix_trans h2 (appendEntry_ctxPrefix _ _)

/-- Whole-run version: whatever the exit path, the final turn log
extends the starting one. -/
theorem runLoopT_ctxPrefix (env : Env) (m : Nat) :
    ∀ (fuel : Nat) (s : AgentState),
      ctxPrefix s (resultState (runLoopT env m fuel s).2) := by
  intro fuel
  induction fuel with
  | zero => intro s; exact ctxPrefix_refl _
  | succ n ih =>
      intro s
      have hstep := runStepT_out_ctxPrefix env (m - (n + 1)) s
      simp only [runLoopT]
      rcases hrs : runStepT env (m - (n + 1)) s with ⟨snaps, out⟩
      rw [hrs] at hstep
      cases out with
      | next s' =>
          simp only [stepOutState] at hstep
          exact ctxPrefix_trans hstep (ih s')
      | finishedNow r s' => simpa [stepOutState, resultState] using hstep
      | crash msg s' => simpa [stepOutState, resultState] using hstep
      | blockedStep s' => simpa [stepOutState, resultState] using hstep

/-- C9: across every turn of an orchestrator run the turn log is
append-only — within each loop iteration every successive state's log
extends the previous one (so lengths are non-decreasing and no entry is
mutated, removed, or reordered), and over any whole run the final log
extends the initial one. -/
theorem turnLog_append_only :
    (∀ (env : Env) (i : Nat) (s : AgentState),
        List.Chain' ctxPrefix (s :: (runStepT env i s).1)) ∧
    (∀ (env : Env) (m fuel : Nat) (s : AgentState),
        ctxPrefix s (resultState (runLoopT env m fuel s).2)) :=
  ⟨runStepT_chain, fun env m fuel s => runLoopT_ctxPrefix env m fuel s⟩

/-- A conditional flag reset cannot make the flag true. -/
theorem flagIte_flag_false (s : AgentState)
    (h : s.is_human_in_control = false) (c : Prop) [Decidable c] :
    (if c then { s with is_human_in_control := false }
     else s).is_human_in_control = false := by
  split
  · rfl
  · exact h

theorem appendEntry_flag (s : AgentState) (e : Entry) :
    (appendEntry s e).is_human_in_control = s.is_human_in_control := rfl

/-- No state inside one loop iteration has `is_human_in_control = true`
when the iteration starts with it false: the loop body's only write to
the flag sets it to `false`. -/
theorem runStepT_flag_false (env : Env) (i : Nat) (s : AgentState)
    (h : s.is_human_in_control = false) :
    (∀ st ∈ (runStepT env i s).1, st.is_human_in_control = false) ∧
    (stepOutState (runStepT env i s).2).is_human_in_control = false := by
  have h1 : (stateWithObs env i s).is_human_in_control = false := h
  have h2 : (if (generate_response (env.llmRaw (stateWithObs env i s).context false)
            false).content.isEmpty
       then stateWithObs env i s
       else appendEntry (stateWithObs env i s)
         (assistantEntry (generate_response
           (env.llmRaw (stateWithObs env i s).context false) false).content)
      ).is_human_in_control = false := by
    split
    · exact h1
    · exact h1
  simp only [runStepT]
  split
  · refine ⟨?_, h2⟩
    intro st hst
    simp only [List.mem_cons, List.not_mem_nil, or_false] at hst
    rcases hst with rfl | rfl
    · exact h1
    · exact h2
  · split
    · split
      · split
        · refine ⟨?_, h2⟩
          intro st hst
          simp only [List.mem_cons, List.not_mem_nil, or_false] at hst
          rcases hst with rfl | rfl
          · exact h1
          · exact h2
        · refine ⟨?_, h2⟩
          intro st hst
          simp only [List.mem_cons, List.not_mem_nil, or_false] at hst
          rcases hst with rfl | rfl
          · exact h1
          · exact h2
        · refine ⟨?_, ?_⟩
          · intro st hst
            simp only [List.mem_cons, List.not_mem_nil, or_false] at hst
            rcases hst with rfl | rfl | rfl | rfl
            · exact h1
            · exact h2
            · exact h2
            · exact flagIte_flag_false _ ((appendEntry_flag _ _).trans h2) _
          · simp only [stepOutState]
            exact flagIte_flag_false _ ((appendEntry_flag _ _).trans h2) _
      · refine ⟨?_, h2⟩
        intro st hst
        simp only [List.mem_cons, List.not_mem_nil, or_false] at hst
        rcases hst with rfl | rfl | rfl
        · exact h1
        · exact h2
        · exact h2
    · refine ⟨?_, h2⟩
      intro st hst
      simp only [List.mem_cons, List.not_mem_nil, or_false] at hst
      rcases hst with rfl | rfl | rfl
      · exact h1
      · exact h2
      · exact h2

/-- Run-level version: starting with the flag down, no state the run
ever passes through raises it, whatever the planner, tools or operator
do. -/
theorem runLoopT_flag_false (env : Env) (m : Nat) :
    ∀ (fuel : Nat) (s : AgentState), s.is_human_in_control = false →
      (∀ st ∈ (runLoopT env m fuel s).1, st.is_human_in_control = false) ∧
      (resultState (runLoopT env m fuel s).2).is_human_in_control = false := by
  intro fuel
  induction fuel with
  | zero =>
      intro s h
      exact ⟨fun st hst => absurd hst (List.not_mem_nil st), h⟩
  | succ n ih =>
      intro s h
      have hstep := runStepT_flag_false env (m - (n + 1)) s h
      simp only [runLoopT]
      rcases hrs : runStepT env (m - (n + 1)) s with ⟨snaps, out⟩
      rw [hrs] at hstep
      cases out with
      | next s' =>
          simp only [stepOutState] at hstep
          have hrest := ih s' hstep.2
          refine ⟨?_, hrest.2⟩
          intro st hst
          rcases List.mem_append.mp hst with hmem | hmem
          · exact hstep.1 st hmem
          · exact hrest.1 st hmem
      | finishedNow r s' =>
          simp only [stepOutState] at hstep
          exact ⟨hstep.1, hstep.2⟩
      | crash msg s' =>
          simp only [stepOutState] at hstep
          exact ⟨hstep.1, hstep.2⟩
      | blockedStep s' =>
          simp only [stepOutState] at hstep
          exact ⟨hstep.1, hstep.2⟩

/-- C1 (code bug): the orchestrator never delivers the claimed abort
behaviour.  Under the source's actual `await` semantics, every run with
a positive iteration budget raises `TypeError` at
`await self.browser.get_current_url()` — before any observation is
logged, any planner call is made, or any capability (the handoff
included) could be dispatched — so the operator is never prompted and
no aborted result is ever produced; in particular the run over the
claim's scenario environment (a planner that would invoke the handoff
and an operator who would type `abort`) crashes with its turn log still
empty instead of terminating with an aborted result.  Independently,
the loop body contains no check of the handoff's `aborted` outcome, and
even a returning handoff could only reach the log as the executor's
`await`-TypeError failure string. -/
theorem abort_never_terminates_with_aborted_result :
    (∀ (env : Env) (m : Nat) (s : AgentState),
        runAgentF env (m + 1) s = .crashed (awaitErrText "str".data) s) ∧
    runAgentF abortEnv 2 (initialState "查询天气".data) =
      .crashed (awaitErrText "str".data) (initialState "查询天气".data) ∧
    (initialState "查询天气".data).context = [] :=
  ⟨fun _ _ _ => rfl, rfl, rfl⟩

/-- C2 (code bug): `humanInControl` is never true.  Under the source's
actual `await` semantics every run with a positive budget crashes at
the first observation with the flag still false and nothing logged; and
even under the repaired collaborator semantics — where the loop, the
dispatch and the handoff do execute — no state in the complete
intermediate-state trace of any run, for any planner, tools and
operator behaviour, ever has `is_human_in_control = true`: the loop
body's only write to the flag is the reset to `false` after a handoff
dispatch, contradicting "set to true on entry into the handoff". -/
theorem humanInControl_never_true :
    (∀ (env : Env) (m : Nat) (s : AgentState),
        runAgentF env (m + 1) s = .crashed (awaitErrText "str".data) s) ∧
    (∀ (env : Env) (m fuel : Nat) (task : Str),
        (∀ st ∈ (runLoopT env m fuel (initialState task)).1,
            st.is_human_in_control = false) ∧
        (resultState (runLoopT env m fuel (initialState task)).2
            ).is_human_in_control = false) :=
  ⟨fun _ _ _ => rfl,
   fun env m fuel task => runLoopT_flag_false env m fuel (initialState task) rfl⟩

/-- The truncation equation of `execute` for over-long successful
string results, shared by several theorems below. -/
theorem execute_truncates (tools : ToolTable)
    (nm : Str) (f : ToolFn) (ps : JsonVal) (s : Str)
    (hf : lookupFn tools nm = some f)
    (hr : f ps = .ok (.str s))
    (hl : 2000 < s.length) :
    execute tools (some (.str nm)) ps =
      .ok (toolOkPrefix nm ++ (s.take 2000 ++ truncMarker)) := by
  have hl' : lenCeiling < s.length := hl
  simp only [execute, hf, hr, truncateResult, if_pos hl', pyRender]
  rfl

/-- C3 (counterexample): for a capability returning 2001 copies of `a`,
the string the dispatcher returns is not "exactly the first 2000
characters of the result plus the truncation marker, and nothing else":
it carries the success prefix naming the capability in front. -/
theorem dispatched_truncation_not_bare :
    execute [("t".data, bigStrTool)]
        (some (.str "t".data)) (.obj []) ≠
      .ok (List.replicate 2000 'a' ++ truncMarker) := by
  rw [execute_truncates [("t".data, bigStrTool)] "t".data bigStrTool
    (.obj []) (List.replicate 2001 'a') rfl rfl
    (by rw [List.length_replicate]; omega)]
  intro hEq
  have h := congrArg (fun r => (okText r).length) hEq
  simp only [okText, List.length_append, List.length_take,
    List.length_replicate] at h
  have hp : (toolOkPrefix "t".data).length = 13 := rfl
  have hm : truncMarker.length = 11 := rfl
  rw [hp, hm] at h
  omega

/-- C3 (amended): for every successful capability invocation whose
result string is longer than 2000 characters, the dispatcher returns
the fixed success prefix naming the capability, followed by exactly the
first 2000 characters of the result plus the fixed truncation marker
`...\n[结果已截断]`. -/
theorem dispatched_truncation_prefix_and_marker (tools : ToolTable)
    (nm : Str) (f : ToolFn) (ps : JsonVal) (s : Str)
    (hf : lookupFn tools nm = some f)
    (hr : f ps = .ok (.str s))
    (hl : 2000 < s.length) :
    execute tools (some (.str nm)) ps =
      .ok (toolOkPrefix nm ++ (s.take 2000 ++ truncMarker)) :=
  execute_truncates tools nm f ps s hf hr hl

/-- Witness for the amended C3 at a concrete 2001-character result. -/
theorem dispatched_truncation_prefix_and_marker_witness :
    2000 < (List.replicate 2001 'a').length ∧
    execute [("t".data, bigStrTool)]
        (some (.str "t".data)) (.obj []) =
      .ok (toolOkPrefix "t".data ++
        ((List.replicate 2001 'a').take 2000 ++ truncMarker)) :=
  ⟨by rw [List.length_replicate]; omega,
   dispatched_truncation_prefix_and_marker [("t".data, bigStrTool)] "t".data
     bigStrTool (.obj []) (List.replicate 2001 'a') rfl rfl
     (by rw [List.length_replicate]; omega)⟩

/-- C6 (counterexample): dispatch can raise to its caller — an
invocation whose decoded name is a JSON array makes the dict-membership
test itself raise `TypeError` — and the failure result built for a
raising capability has no length bound: its length grows with the
exception text. -/
theorem invoke_raises_and_failure_unbounded :
    execute [] (some (.arr [])) (.obj []) = .raised unhashableMsg ∧
    ¬ ∃ B : Nat, ∀ msg : Str,
        (okText (execute [("t".data, fun _ => ToolOutcome.exn msg)]
            (some (.str "t".data)) (.obj []))).length ≤ B := by
  constructor
  · rfl
  · rintro ⟨B, hB⟩
    have h := hB (List.replicate (B + 1) 'x')
    have he : okText (execute
          [("t".data, fun _ => ToolOutcome.exn (List.replicate (B + 1) 'x'))]
          (some (.str "t".data)) (.obj [])) =
        toolFailPrefix "t".data ++ List.replicate (B + 1) 'x' := rfl
    rw [he, List.length_append, List.length_replicate] at h
    omega

/-- C6 (amended): for every hashable name (anything the JSON decoder
can produce other than an array or object) and every argument mapping,
`execute` returns without raising; an unregistered string name yields
the structured unknown-capability failure containing the name, and a
capability that raises has its exception caught and converted to a
failure string carrying the fixed failure prefix naming the capability
followed by the full (unbounded) exception text. -/
theorem invoke_failures_are_data (tools : ToolTable) (nm : Option JsonVal)
    (ps : JsonVal) (h : isUnhashable nm = false) :
    isRaised (execute tools nm ps) = false ∧
    (∀ s, nm = some (.str s) → lookupFn tools s = none →
        execute tools nm ps = .ok (unknownToolMsg s)) ∧
    (∀ s f m, nm = some (.str s) → lookupFn tools s = some f → f ps = .exn m →
        execute tools nm ps = .ok (toolFailPrefix s ++ m)) := by
  refine ⟨?_, ?_, ?_⟩
  · match nm with
    | none => rfl
    | some .null => rfl
    | some (.bool b) => rfl
    | some (.num n) => rfl
    | some (.arr xs) => exact absurd h (by simp [isUnhashable])
    | some (.obj kvs) => exact absurd h (by simp [isUnhashable])
    | some (.str s) =>
        match hf : lookupFn tools s with
        | none => simp only [execute, hf, isRaised]
        | some f =>
            match hr : f ps with
            | .ok v => simp only [execute, hf, hr, isRaised]
            | .exn m => simp only [execute, hf, hr, isRaised]
            | .blocks => simp only [execute, hf, hr, isRaised]
  · rintro s rfl hf
    simp only [execute, hf]
  · rintro s f m rfl hf hm
    simp only [execute, hf, hm]

/-- Witness for the amended C6: an unregistered string name gives the
structured unknown-capability failure, without raising. -/
theorem invoke_failures_are_data_witness :
    isUnhashable (some (.str "nav".data)) = false ∧
    isRaised (execute [] (some (.str "nav".data)) (.obj [])) = false ∧
    execute [] (some (.str "nav".data)) (.obj []) =
      .ok (unknownToolMsg "nav".data) :=
  ⟨by decide,
   (invoke_failures_are_data [] (some (.str "nav".data)) (.obj []) (by decide)).1,
   (invoke_failures_are_data [] (some (.str "nav".data)) (.obj [])
      (by decide)).2.1 "nav".data rfl rfl⟩

/-- C4: for every planner reply (in a non-final turn) that contains a
marker pair whose payload parses to an invocation object carrying a
`name` key, and that also contains the designated completion phrase,
the parsed turn has `is_finished = false` and a non-null `tool_call`:
the invocation takes priority over the completion phrase. -/
theorem invocation_overrides_completion_phrase (content : Str)
    (kvs : List (Str × JsonVal)) (nv : JsonVal)
    (h1 : pyIn otag content = true) (h2 : pyIn ctag content = true)
    (h3 : jsonParse (blockText content) = some (.obj kvs))
    (h4 : jsonObjGet kvs "name".data = some nv)
    (h5 : pyIn donePhrase content = true) :
    (generate_response (.ok content) false).is_finished = false ∧
    (generate_response (.ok content) false).tool_call = some (.obj kvs) := by
  have hne : kvs.isEmpty = false := by
    cases kvs with
    | nil => simp [jsonObjGet] at h4
    | cons kv rest => rfl
  simp only [generate_response, h1, h2, Bool.and_self, if_true, h3, hne,
    Bool.and_false, Bool.false_or, and_self]

/-- Witness for C4: a concrete reply carrying both the completion
phrase and a `click` invocation parses to an unfinished turn with the
invocation. -/
theorem invocation_overrides_completion_phrase_witness :
    pyIn otag phraseAndBlockReply = true ∧
    pyIn ctag phraseAndBlockReply = true ∧
    jsonParse (blockText phraseAndBlockReply) = some (.obj phraseAndBlockKvs) ∧
    jsonObjGet phraseAndBlockKvs "name".data = some (.str "click".data) ∧
    pyIn donePhrase phraseAndBlockReply = true ∧
    (generate_response (.ok phraseAndBlockReply) false).is_finished = false ∧
    (generate_response (.ok phraseAndBlockReply) false).tool_call =
      some (.obj phraseAndBlockKvs) :=
  ⟨rfl, rfl, rfl, rfl, rfl,
   (invocation_overrides_completion_phrase phraseAndBlockReply
      phraseAndBlockKvs (.str "click".data) rfl rfl rfl rfl rfl).1,
   (invocation_overrides_completion_phrase phraseAndBlockReply
      phraseAndBlockKvs (.str "click".data) rfl rfl rfl rfl rfl).2⟩

/-- C7: the parsed invocation of a reply is entirely determined by the
payload between the first opening marker and the first closing marker —
whatever follows that first block (including any further invocation
blocks) is ignored without producing an error. -/
theorem only_first_invocation_block_parsed (content : Str)
    (iOpen iClose : Nat) (kvs : List (Str × JsonVal))
    (h1 : findSub? content otag = some iOpen)
    (h2 : findSub? content ctag = some iClose)
    (h3 : jsonParse (pyStrip
        (pySlice content (iOpen + otag.length) iClose)) = some (.obj kvs)) :
    (generate_response (.ok content) false).tool_call = some (.obj kvs) := by
  have ho : pyIn otag content = true := by simp [pyIn, h1]
  have hc : pyIn ctag content = true := by simp [pyIn, h2]
  have hbt : blockText content =
      pyStrip (pySlice content (iOpen + otag.length) iClose) := by
    simp [blockText, tagStart, tagEnd, h1, h2]
  simp only [generate_response, ho, hc, Bool.and_self, if_true, hbt, h3]

/-- Witness for C7: in a reply with two invocation blocks (`a`, then
`b`), only the first block's object becomes the `tool_call`; the second
block survives untouched in the reasoning text. -/
theorem only_first_invocation_block_parsed_witness :
    findSub? twoBlockReply otag = some 1 ∧
    findSub? twoBlockReply ctag = some 25 ∧
    jsonParse (pyStrip (pySlice twoBlockReply (1 + otag.length) 25)) =
      some (.obj [("name".data, .str "a".data)]) ∧
    (generate_response (.ok twoBlockReply) false).tool_call =
      some (.obj [("name".data, .str "a".data)]) ∧
    (generate_response (.ok twoBlockReply) false).content =
      ("去再<tool_call>\x7b\"name\": \"b\"\x7d</tool_call>好").data :=
  ⟨rfl, rfl, rfl,
   only_first_invocation_block_parsed twoBlockReply 1 25
     [("name".data, .str "a".data)] rfl rfl rfl,
   rfl⟩

/-- C8 (counterexample): the reply whose block is `{"foo": 1}` — valid
JSON but not an invocation object (it has neither `name` nor
`arguments`) — does not degrade as the claim states: the parsed turn
keeps the object as a non-null `tool_call`, and the reasoning is the
reply with the block stripped out, not the raw input text. -/
theorem structurally_invalid_block_kept :
    (generate_response (.ok fooBlockReply) false).tool_call ≠ none ∧
    (generate_response (.ok fooBlockReply) false).content ≠ fooBlockReply := by
  constructor
  · rw [show (generate_response (.ok fooBlockReply) false).tool_call =
        some (.obj [("foo".data, .num 1)]) from rfl]
    exact Option.some_ne_none _
  · rw [show (generate_response (.ok fooBlockReply) false).content =
        "请看好的".data from rfl]
    decide

/-- C8 (amended): for every planner reply whose delimited block is not
parseable as JSON, the interpreter returns a turn with `tool_call =
none` and the raw input text retained unchanged as the reasoning; the
parse failure never aborts the turn — the interpreter returns a normal
turn whose finished flag is simply the completion-phrase test on that
raw text. -/
theorem unparseable_block_degrades_to_reasoning (content : Str)
    (h1 : pyIn otag content = true) (h2 : pyIn ctag content = true)
    (h3 : jsonParse (blockText content) = none) :
    (generate_response (.ok content) false).tool_call = none ∧
    (generate_response (.ok content) false).content = content ∧
    (generate_response (.ok content) false).is_finished =
      pyIn donePhrase content := by
  refine ⟨?_, ?_, ?_⟩ <;>
    simp only [generate_response, h1, h2, Bool.and_self, if_true, h3,
      Bool.false_or]

/-- Witness for the amended C8: the broken-block reply degrades to a
no-invocation, unfinished turn retaining the raw text. -/
theorem unparseable_block_degrades_to_reasoning_witness :
    pyIn otag brokenBlockReply = true ∧
    pyIn ctag brokenBlockReply = true ∧
    jsonParse (blockText brokenBlockReply) = none ∧
    (generate_response (.ok brokenBlockReply) false).tool_call = none ∧
    (generate_response (.ok brokenBlockReply) false).content =
      brokenBlockReply ∧
    (generate_response (.ok brokenBlockReply) false).is_finished =
      pyIn donePhrase brokenBlockReply :=
  ⟨rfl, rfl, rfl,
   (unparseable_block_degrades_to_reasoning brokenBlockReply rfl rfl rfl).1,
   (unparseable_block_degrades_to_reasoning brokenBlockReply rfl rfl rfl).2.1,
   (unparseable_block_degrades_to_reasoning brokenBlockReply rfl rfl rfl).2.2⟩

/-- C5 (counterexample): with the iteration budget configured to zero —
the only budget for which the real `run` completes at all — the loop
exhausts without a finished signal, the final-summary call is made, and
its content `好的，完成` is returned *verbatim*: the result carries no
incomplete tag whatsoever (it does not even contain the 未完成 marker
the empty-content fallback notice uses), so the iteration-exhausted
outcome is not textually marked for the caller as the claim requires. -/
theorem exhausted_result_untagged :
    runAgentF proseEnv 0 (initialState "乙任务".data) =
      .done "好的，完成".data (initialState "乙任务".data) ∧
    pyIn "未完成".data
      (resultText (runAgentF proseEnv 0 (initialState "乙任务".data)))
      = false := by
  refine ⟨by decide, by decide⟩

/-- C5 (amended): the iteration-exhausted path exists only for a zero
budget — with `maxIterations = 0` the loop body never runs, the
orchestrator performs the final-summary call and returns its content
verbatim, untagged, falling back to the fixed iteration-exhausted
notice only when that content is empty; for every positive
`maxIterations` the run instead raises `TypeError` at the first
observation `await` and produces none of the three terminal
outcomes. -/
theorem exhaustion_returns_summary_verbatim :
    (∀ (env : Env) (s : AgentState),
        runAgentF env 0 s =
          .done (orDefault
            (generate_response (env.llmRaw s.context true) true).content
            (exhaustedDefault 0)) s) ∧
    (∀ (env : Env) (m : Nat) (s : AgentState),
        runAgentF env (m + 1) s = .crashed (awaitErrText "str".data) s) :=
  ⟨fun _ _ => rfl, fun _ _ _ => rfl⟩

/-- C10: with the module-level browser instance unset, each registered
browser capability — navigation, interaction, screenshot, and handoff —
returns its structured failure dictionary with `success = False` and
the uninitialized-browser message, without raising and without a single
call into the actuator (its effect trace is empty). -/
theorem uninitialized_browser_guard :
    (∀ url, go_to_url none url =
      (.dict [("success".data, .pyBool false),
              ("message".data, .str uninitMsg),
              ("current_url".data, .pyNone)], [])) ∧
    (∀ sel st, click_element none sel st =
      (.dict [("success".data, .pyBool false),
              ("message".data, .str uninitMsg),
              ("current_url".data, .pyNone)], [])) ∧
    (∀ ctx d, take_screenshot none ctx d =
      (.dict [("success".data, .pyBool false),
              ("message".data, .str uninitMsg),
              ("screenshot_path".data, .pyNone),
              ("current_url".data, .pyNone)], [])) ∧
    (∀ sc ctx ops reason, request_human_intervention none sc ctx ops reason =
      (.ok (.dict [("success".data, .pyBool false),
                   ("message".data, .str uninitMsg),
                   ("current_url".data, .pyNone)]), [])) :=
  ⟨fun _ => rfl, fun _ _ => rfl, fun _ _ => rfl, fun _ _ _ _ => rfl⟩

end WebAgent
